import Mathlib

/- Shallow embedding of the skupper-ansible v2 collection:
   module_utils/resource.py (filesystem backend: allowed, version_kind, dump, delete),
   module_utils/k8s.py (remote API backend: create_or_patch, delete),
   modules/token.py (TokenModule: has_condition, can_be_redeemed, load_from_grant,
   _load_from_list, generate_grant, run).
   Python dicts parsed from YAML are modelled by the ObjData structure below;
   a document that does not parse to a mapping is Doc.nonMap. -/

/- Python string helpers. `leadsWith n h` is true when the char list n is an
   initial segment of h; `pyInStr n h` models the Python expression `n in h`
   for strings, i.e. substring membership (true for the empty needle). -/
def leadsWith : List Char → List Char → Bool
  | [], _ => true
  | _ :: _, [] => false
  | a :: as, b :: bs => a == b && leadsWith as bs

def hasSub (needle : List Char) : List Char → Bool
  | [] => leadsWith needle []
  | c :: t => leadsWith needle (c :: t) || hasSub needle t

def pyInStr (needle hay : String) : Bool :=
  hasSub needle.toList hay.toList

/- Models Python `s or d` for strings (empty string is falsy). -/
def pyOr (s d : String) : String :=
  if s == "" then d else s

/- Models Python truthiness of an optional string (None and "" are falsy). -/
def pyTruthyStr : Option String → Bool
  | none => false
  | some s => !(s == "")

/- Models Python `"%s" % v` where v may be None. -/
def pyStrOpt : Option String → String
  | none => "None"
  | some s => s

/- One entry of status.conditions; fields model the "type" and "status" keys
   (absent keys are none, matching dict.get defaults in the source). -/
structure Condition where
  ctype : Option String := none
  cstatus : Option String := none
deriving DecidableEq, Repr

structure MetaData where
  name : Option String := none
  nspace : Option String := none
deriving DecidableEq, Repr

structure SpecData where
  redemptionsAllowed : Option Int := none
  expirationWindow : Option String := none
  code : Option String := none
  url : Option String := none
  ca : Option String := none
deriving DecidableEq, Repr

structure StatusData where
  redeemed : Option Int := none
  conditions : List Condition := []
  code : Option String := none
  url : Option String := none
  ca : Option String := none
deriving DecidableEq, Repr

/- A YAML mapping as used by the source: top-level keys apiVersion, kind,
   metadata, spec, status; each is none when the key is absent. -/
structure ObjData where
  apiVersion : Option String := none
  kind : Option String := none
  meta : Option MetaData := none
  spec : Option SpecData := none
  status : Option StatusData := none
deriving DecidableEq, Repr

/- One document of a multi-document definitions blob: either a mapping or
   anything else (null, scalar, sequence), which Python sees as non-dict. -/
inductive Doc
  | obj (o : ObjData)
  | nonMap (tag : String)
deriving DecidableEq, Repr

def Doc.isObj : Doc → Bool
  | .obj _ => true
  | .nonMap _ => false

/- resource.version_kind: apiVersion/kind with "" default for absent keys. -/
def version_kind (o : ObjData) : String × String :=
  (o.apiVersion.getD "", o.kind.getD "")

/- resource.allowed: the source reads
   `apiVersion in ("skupper.io/v2alpha1") or kind in ("Secret")`.
   In Python `("x")` is the string "x", so `in` is SUBSTRING membership,
   not membership in a one-element tuple. -/
def allowed (o : ObjData) : Bool :=
  pyInStr (version_kind o).1 "skupper.io/v2alpha1" || pyInStr (version_kind o).2 "Secret"

/- Association list helpers modelling the filesystem directory and the API
   server store. -/
def lookupAssoc {α β : Type} [BEq α] (l : List (α × β)) (k : α) : Option β :=
  (l.find? (fun p => p.1 == k)).map Prod.snd

def writeAssoc {α β : Type} [BEq α] : List (α × β) → α → β → List (α × β)
  | [], k, v => [(k, v)]
  | (k0, v0) :: rest, k, v =>
    if k0 == k then (k, v) :: rest else (k0, v0) :: writeAssoc rest k v

def removeAssoc {α β : Type} [BEq α] : List (α × β) → α → List (α × β)
  | [], _ => []
  | (k0, v0) :: rest, k =>
    if k0 == k then rest else (k0, v0) :: removeAssoc rest k

/- Errors raised by the Python code. exc is a plain Exception (the namespace
   mismatch in k8s.create_or_patch), k8sExc a K8sException built from an
   ApiException, keyErr a KeyError (metadata key absent while stamping),
   typeErr the crash of resource.delete on a non-mapping document. -/
inductive PyErr
  | exc (msg : String)
  | k8sExc (msg : String)
  | keyErr (key : String)
  | typeErr
deriving DecidableEq, Repr

/- Filesystem backend state: the per-namespace resource directory as an
   association list filename -> stored object (dump writes yaml files). -/

/- resource.dump, after the home-directory existence check (the claims all
   concern the per-object loop; the directory is modelled as present).
   Faithful points: non-dict documents are skipped; objects without a truthy
   metadata.name or failing `allowed` are skipped; an empty declared
   namespace is stamped with the target namespace; file <kind>-<name>.yaml
   is written unless it exists and overwrite is false. No namespace
   validation is performed. -/
def stampNs (o : ObjData) (tns : String) : ObjData :=
  { o with meta := o.meta.map (fun m => { m with nspace := some tns }) }

def dumpStep (fs : List (String × ObjData)) (tns : String) (overwrite : Bool) (o : ObjData) :
    List (String × ObjData) × Bool :=
  let name := o.meta.bind MetaData.name
  if !(pyTruthyStr name) || !(allowed o) then (fs, false)
  else
    let o2 := if (o.meta.bind MetaData.nspace).getD "" == "" then stampNs o tns else o
    let filename := (version_kind o).2 ++ "-" ++ name.getD "" ++ ".yaml"
    if (lookupAssoc fs filename).isSome && !overwrite then (fs, false)
    else (writeAssoc fs filename o2, true)

def dumpGo (fs : List (String × ObjData)) (tns : String) (overwrite changed : Bool) :
    List Doc → List (String × ObjData) × Bool
  | [] => (fs, changed)
  | .nonMap _ :: rest => dumpGo fs tns overwrite changed rest
  | .obj o :: rest =>
    let p := dumpStep fs tns overwrite o
    dumpGo p.1 tns overwrite (changed || p.2) rest

def dump (fs : List (String × ObjData)) (tns : String) (docs : List Doc) (overwrite : Bool) :
    List (String × ObjData) × Bool :=
  dumpGo fs tns overwrite false docs

/- resource.delete. It does NOT skip non-dict documents: version_kind and
   obj.get crash on them (TypeError/AttributeError), modelled as typeErr. -/
def fs_deleteGo (fs : List (String × ObjData)) (changed : Bool) :
    List Doc → Except PyErr (List (String × ObjData) × Bool)
  | [] => .ok (fs, changed)
  | .nonMap _ :: _ => .error .typeErr
  | .obj o :: rest =>
    let name := o.meta.bind MetaData.name
    if !(pyTruthyStr name) then fs_deleteGo fs changed rest
    else
      let filename := (version_kind o).2 ++ "-" ++ name.getD "" ++ ".yaml"
      if (lookupAssoc fs filename).isSome then
        fs_deleteGo (removeAssoc fs filename) true rest
      else
        fs_deleteGo fs changed rest

def fs_delete (fs : List (String × ObjData)) (docs : List Doc) :
    Except PyErr (List (String × ObjData) × Bool) :=
  fs_deleteGo fs false docs

/- Remote API backend (k8s.py). An object is keyed by (api version, kind,
   namespace, name); the state of the API server is an association list of
   stored objects plus a fault table: a key listed there makes any API call
   on it raise an ApiException with the recorded status/reason/message
   (modelling transport and server errors other than the existence-derived
   Conflict and NotFound, which come from the store itself). -/
structure K8sKey where
  version : String
  kind : String
  nspace : String
  name : String
deriving DecidableEq, Repr

structure K8sFault where
  status : Int
  reason : String
  msg : String
deriving DecidableEq, Repr

structure ApiState where
  store : List (K8sKey × ObjData)
  faults : List (K8sKey × K8sFault)
deriving DecidableEq, Repr

def storeLookup (st : ApiState) (k : K8sKey) : Option ObjData :=
  lookupAssoc st.store k

def faultLookup (st : ApiState) (k : K8sKey) : Option K8sFault :=
  lookupAssoc st.faults k

def storeWrite (st : ApiState) (k : K8sKey) (v : ObjData) : ApiState :=
  { st with store := writeAssoc st.store k v }

def storeRemove (st : ApiState) (k : K8sKey) : ApiState :=
  { st with store := removeAssoc st.store k }

/- The K8sException message built in k8s.py:
   "reason: %s - status: %s - message: %s". -/
def k8sFaultMsg (f : K8sFault) : String :=
  "reason: " ++ f.reason ++ " - status: " ++ toString f.status ++ " - message: " ++ f.msg

/- The key under which the API server files a submitted object: the create
   and delete calls pass the target namespace explicitly. -/
def objKey (o : ObjData) (tns : String) : K8sKey :=
  { version := (version_kind o).1, kind := (version_kind o).2, nspace := tns,
    name := (o.meta.bind MetaData.name).getD "" }

/- One object of k8s.create_or_patch, after the namespace handling:
   a fault with reason Conflict and a store hit both take the conflict
   branch (skip when overwrite is false, merge-patch when true - the patch
   body is the submitted object); a fault with any other reason raises a
   K8sException; otherwise the object is created. The returned Bool is this
   object's contribution to the changed flag. -/
def applyOne (st : ApiState) (tns : String) (overwrite : Bool) (o : ObjData) :
    Except PyErr (ApiState × Bool) :=
  let key := objKey o tns
  match faultLookup st key with
  | some f =>
    if f.reason == "Conflict" then
      if !overwrite then .ok (st, false)
      else .ok (storeWrite st key o, true)
    else .error (.k8sExc (k8sFaultMsg f))
  | none =>
    match storeLookup st key with
    | some _ =>
      if !overwrite then .ok (st, false)
      else .ok (storeWrite st key o, true)
    | none => .ok (storeWrite st key o, true)

/- k8s.create_or_patch. Per object: non-dict documents are skipped; the
   declared namespace (default "default") is compared against the target
   (Python `namespace or "default"`, "" standing for None): equal means
   proceed unchanged, declared "default" means restamp with the target
   (a KeyError if the metadata key is absent), anything else raises the
   namespace-mismatch Exception before any API call. -/
def create_or_patchStep (st : ApiState) (tns : String) (overwrite : Bool) (o : ObjData) :
    Except PyErr (ApiState × Bool) :=
  let target := pyOr tns "default"
  let objNs := (o.meta.bind MetaData.nspace).getD "default"
  if objNs != target then
    if objNs == "default" then
      match o.meta with
      | none => .error (.keyErr "metadata")
      | some m => applyOne st tns overwrite { o with meta := some { m with nspace := some tns } }
    else
      .error (.exc ("namespace cannot be set to \x27" ++ tns ++
        "\x27 as resource is defined with namespace \x27" ++ objNs ++ "\x27"))
  else applyOne st tns overwrite o

def create_or_patchGo (st : ApiState) (tns : String) (overwrite changed : Bool) :
    List Doc → Except PyErr (ApiState × Bool)
  | [] => .ok (st, changed)
  | .nonMap _ :: rest => create_or_patchGo st tns overwrite changed rest
  | .obj o :: rest =>
    match create_or_patchStep st tns overwrite o with
    | .error e => .error e
    | .ok (st2, c) => create_or_patchGo st2 tns overwrite (changed || c) rest

def create_or_patch (st : ApiState) (tns : String) (docs : List Doc) (overwrite : Bool) :
    Except PyErr (ApiState × Bool) :=
  create_or_patchGo st tns overwrite false docs

/- One object of k8s.delete: a fault with status 404 is absorbed (continue),
   any other fault raises; an object absent from the store yields the API
   server's 404, likewise absorbed; a present object is removed. -/
def deleteOne (st : ApiState) (key : K8sKey) : Except PyErr (ApiState × Bool) :=
  match faultLookup st key with
  | some f =>
    if f.status == 404 then .ok (st, false)
    else .error (.k8sExc (k8sFaultMsg f))
  | none =>
    match storeLookup st key with
    | some _ => .ok (storeRemove st key, true)
    | none => .ok (st, false)

/- k8s.delete: non-dict documents and objects without a truthy name are
   skipped; otherwise deleteOne runs on the object's key. -/
def k8s_deleteStep (st : ApiState) (tns : String) (o : ObjData) : Except PyErr (ApiState × Bool) :=
  if !(pyTruthyStr (o.meta.bind MetaData.name)) then .ok (st, false)
  else deleteOne st (objKey o tns)

def k8s_deleteGo (st : ApiState) (tns : String) (changed : Bool) :
    List Doc → Except PyErr (ApiState × Bool)
  | [] => .ok (st, changed)
  | .nonMap _ :: rest => k8s_deleteGo st tns changed rest
  | .obj o :: rest =>
    match k8s_deleteStep st tns o with
    | .error e => .error e
    | .ok (st2, c) => k8s_deleteGo st2 tns (changed || c) rest

def k8s_delete (st : ApiState) (tns : String) (docs : List Doc) :
    Except PyErr (ApiState × Bool) :=
  k8s_deleteGo st tns false docs

/- modules/token.py. The poll budget of TokenModule.load_from_grant. -/
def max_attempts : Nat := 6

def retry_delay : Nat := 5

/- Modelled from the spec: `has_condition` comes from the K8sClient helper
   module, which is not part of the sources here (only its import site is).
   Per the spec, a condition is met when an entry of status.conditions with
   matching type has status == "True"; this also matches the in-source
   TokenModule.is_grant_ready, which reads the same keys with dict.get
   defaults "" (type) and "False" (status). -/
def has_condition (o : ObjData) (t : String) : Bool :=
  ((o.status.map StatusData.conditions).getD []).any
    (fun c => c.ctype.getD "" == t && c.cstatus.getD "False" == "True")

/- TokenModule.can_be_redeemed: status.redeemed < spec.redemptionsAllowed,
   both defaulting to 0 when absent. -/
def can_be_redeemed (g : ObjData) : Bool :=
  (g.status.bind StatusData.redeemed).getD 0 < (g.spec.bind SpecData.redemptionsAllowed).getD 0

/- Result of one fetch of the missing K8sClient.get. Modelled from the spec:
   get(namespace, apiVersion, kind, name?) returns a single object (named
   get), a list (unnamed get) or a NotFound/other error carrying a numeric
   status; load_from_grant absorbs status 404 and re-raises anything else. -/
inductive ListGetRes
  | ok (l : List ObjData)
  | err (status : Int)
deriving DecidableEq, Repr

inductive GetRes
  | objRes (o : ObjData)
  | listRes (l : List ObjData)
  | errRes (status : Int)
deriving DecidableEq, Repr

/- TokenModule._load_from_list: scan the fetched grants; a member without a
   Ready condition clears all_ready; the first Ready and redeemable member
   (while no selection exists yet) becomes the selection. -/
def load_from_listGo (sel : Option ObjData) (allReady : Bool) :
    List ObjData → Option ObjData × Bool
  | [] => (sel, allReady)
  | g :: rest =>
    if has_condition g "Ready" then
      if sel.isNone && can_be_redeemed g then load_from_listGo (some g) allReady rest
      else load_from_listGo sel allReady rest
    else load_from_listGo sel false rest

def load_from_list (gs : List ObjData) : Option ObjData × Bool :=
  load_from_listGo none true gs

/- Outcome of the Site-readiness loop of load_from_grant, together with the
   number of fetches performed and the total seconds slept. emptyReturn is
   the `if not sites: return ""` short-circuit; raised is a K8sException
   with status other than 404 propagating out. -/
inductive SiteOutcome
  | emptyReturn
  | proceed (siteReady : Bool)
  | raised (status : Int)
deriving DecidableEq, Repr

def siteLoopGo (fetch : Nat → ListGetRes) :
    Nat → Nat → Bool → Nat → Nat → SiteOutcome × Nat × Nat
  | _, 0, sr, fc, sc => (.proceed sr, fc, sc)
  | attempt, r + 1, sr, fc, sc =>
    match fetch attempt with
    | .err s =>
      if s == 404 then
        if sr then (.proceed true, fc + 1, sc)
        else siteLoopGo fetch (attempt + 1) r sr (fc + 1) (sc + retry_delay)
      else (.raised s, fc + 1, sc)
    | .ok sites =>
      if sites.isEmpty then (.emptyReturn, fc + 1, sc)
      else
        if sr || sites.any (fun s => has_condition s "Ready") then (.proceed true, fc + 1, sc)
        else siteLoopGo fetch (attempt + 1) r false (fc + 1) (sc + retry_delay)

def siteLoop (fetch : Nat → ListGetRes) : SiteOutcome × Nat × Nat :=
  siteLoopGo fetch 0 max_attempts false 0 0

/- Outcome of the AccessGrant loop: empty models `access_grant == {}` after
   the loop (load_from_grant then returns ""). -/
inductive GrantOutcome
  | selected (g : ObjData)
  | empty
  | raised (status : Int)
deriving DecidableEq, Repr

def finalizeGrant (acc : Option ObjData) : GrantOutcome :=
  match acc with
  | some g => .selected g
  | none => .empty

/- The AccessGrant loop of load_from_grant. Per attempt: a 404 (or an empty
   list) breaks with the current accumulator; a named (dict) result breaks
   only when it has a Ready condition; a list result runs _load_from_list,
   REPLACING the accumulator with this attempt's selection, and breaks only
   when every member of the list was Ready; otherwise sleep and retry. -/
def grantLoopGo (fetch : Nat → GetRes) :
    Nat → Nat → Option ObjData → Nat → Nat → GrantOutcome × Nat × Nat
  | _, 0, acc, fc, sc => (finalizeGrant acc, fc, sc)
  | attempt, r + 1, acc, fc, sc =>
    match fetch attempt with
    | .errRes s =>
      if s == 404 then (finalizeGrant acc, fc + 1, sc)
      else (.raised s, fc + 1, sc)
    | .objRes g =>
      if has_condition g "Ready" then (.selected g, fc + 1, sc)
      else grantLoopGo fetch (attempt + 1) r acc (fc + 1) (sc + retry_delay)
    | .listRes gs =>
      if gs.isEmpty then (finalizeGrant acc, fc + 1, sc)
      else
        let p := load_from_list gs
        if p.2 then (finalizeGrant p.1, fc + 1, sc)
        else grantLoopGo fetch (attempt + 1) r p.1 (fc + 1) (sc + retry_delay)

def grantLoop (fetch : Nat → GetRes) : GrantOutcome × Nat × Nat :=
  grantLoopGo fetch 0 max_attempts none 0 0

/- The AccessToken document synthesized at the end of load_from_grant.
   Any grant reaching this point carries a status mapping (it passed
   has_condition), so the .get("status") chains cannot hit None. A grant
   whose metadata lacks a name yields "token-None" via Python %s. -/
def mkAccessToken (g : ObjData) : ObjData :=
  { apiVersion := some "skupper.io/v2alpha1", kind := some "AccessToken",
    meta := some { name := some ("token-" ++ pyStrOpt (g.meta.bind MetaData.name)), nspace := none },
    spec := some { redemptionsAllowed := none, expirationWindow := none,
                   code := g.status.bind StatusData.code,
                   url := g.status.bind StatusData.url,
                   ca := g.status.bind StatusData.ca },
    status := none }

/- The AccessGrant definition built by TokenModule.generate_grant. -/
def mkAccessGrant (name : String) (redemptions : Int) (expiration : String) : ObjData :=
  { apiVersion := some "skupper.io/v2alpha1", kind := some "AccessGrant",
    meta := some { name := some name, nspace := none },
    spec := some { redemptionsAllowed := some redemptions, expirationWindow := some expiration,
                   code := none, url := none, ca := none },
    status := none }

/- Result of one call of TokenModule.load_from_grant ("" for None name).
   token g stands for the yaml dump of mkAccessToken g; emptyStr for the
   empty-string returns; runtimeErr for the RuntimeException of the named
   redeemability check; k8sErr for a propagating K8sException. -/
inductive LfgResult
  | token (g : ObjData)
  | emptyStr
  | runtimeErr (msg : String)
  | k8sErr (status : Int)
deriving DecidableEq, Repr

def load_from_grant (name : String) (sf : Nat → ListGetRes) (gf : Nat → GetRes) : LfgResult :=
  match siteLoopGo sf 0 max_attempts false 0 0 with
  | (.emptyReturn, _, _) => .emptyStr
  | (.raised s, _, _) => .k8sErr s
  | (.proceed _, _, _) =>
    match grantLoopGo gf 0 max_attempts none 0 0 with
    | (.raised s, _, _) => .k8sErr s
    | (.empty, _, _) => .emptyStr
    | (.selected g, _, _) =>
      if name != "" && (!(has_condition g "Ready") || !(can_be_redeemed g)) then
        .runtimeErr ("accessgrant \x27" ++ name ++ "\x27 cannot be redeemed")
      else .token g

/- Outcome of TokenModule.generate_grant, i.e. of the missing
   K8sClient.create_or_patch on the new grant with overwrite False.
   Modelled from the spec: createOrPatch returns changed:boolean, a
   create Conflict with overwrite false is skipped (False), other errors
   raise (matching the in-source module-level k8s.create_or_patch). -/
inductive CreateOut
  | ok
  | noChange
  | raisedEx
deriving DecidableEq, Repr

/- Result of TokenModule.run on the kubernetes platform. exitOk carries the
   returned token (as its parsed document) and the changed flag; failJson is
   a fail_json call; raisedRuntime/raisedK8s are exceptions escaping run. -/
inductive RunResult
  | exitOk (token : Option ObjData) (changed : Bool)
  | failJson (msg : String)
  | raisedRuntime (msg : String)
  | raisedK8s (status : Int)
deriving DecidableEq, Repr

/- TokenModule.run, kubernetes path, parametrized by the cluster responses
   of the two load_from_grant calls, the outcome of the grant creation, and
   the generated name "ansible-grant-<unixtime>" used when no name is given.
   The second component is the AccessGrant definition submitted for
   creation, when generate_grant was reached. -/
def runKube (name : String) (sf1 : Nat → ListGetRes) (gf1 : Nat → GetRes) (co : CreateOut)
    (sf2 : Nat → ListGetRes) (gf2 : Nat → GetRes) (genName : String)
    (redemptions : Int) (expiration : String) : RunResult × Option ObjData :=
  match load_from_grant name sf1 gf1 with
  | .runtimeErr m => (.failJson m, none)
  | .k8sErr s => (.raisedK8s s, none)
  | .token g => (.exitOk (some (mkAccessToken g)) false, none)
  | .emptyStr =>
    let gname := if name == "" then genName else name
    let grantObj := mkAccessGrant gname redemptions expiration
    match co with
    | .raisedEx => (.raisedRuntime ("error creating AccessGrant: \x27" ++ gname ++ "\x27"), some grantObj)
    | .noChange => (.failJson ("unable to create AccessGrant: \x27" ++ gname ++ "\x27"), some grantObj)
    | .ok =>
      match load_from_grant gname sf2 gf2 with
      | .runtimeErr m => (.failJson m, some grantObj)
      | .k8sErr s => (.raisedK8s s, some grantObj)
      | .token g => (.exitOk (some (mkAccessToken g)) true, some grantObj)
      | .emptyStr => (.exitOk none true, some grantObj)

/- Concrete fixtures used by the closed theorems and witnesses. -/
def readyCond : Condition :=
  { ctype := some "Ready", cstatus := some "True" }

def siteReadyObj : ObjData :=
  { apiVersion := some "skupper.io/v2alpha1", kind := some "Site",
    meta := some { name := some "my-site", nspace := some "west" },
    status := some { conditions := [readyCond] } }

def siteNotReadyObj : ObjData :=
  { apiVersion := some "skupper.io/v2alpha1", kind := some "Site",
    meta := some { name := some "my-site", nspace := some "west" },
    status := some { conditions := [] } }

def gReady : ObjData :=
  { apiVersion := some "skupper.io/v2alpha1", kind := some "AccessGrant",
    meta := some { name := some "g1", nspace := some "west" },
    spec := some { redemptionsAllowed := some 1, expirationWindow := some "15m" },
    status := some { redeemed := some 0, conditions := [readyCond],
                     code := some "c0de", url := some "https://grant.example", ca := some "CERT" } }

def gNotReady : ObjData :=
  { apiVersion := some "skupper.io/v2alpha1", kind := some "AccessGrant",
    meta := some { name := some "g2", nspace := some "west" },
    spec := some { redemptionsAllowed := some 1, expirationWindow := some "15m" },
    status := some { redeemed := some 0, conditions := [] } }

def grantNamedNotReady : ObjData :=
  { apiVersion := some "skupper.io/v2alpha1", kind := some "AccessGrant",
    meta := some { name := some "my-grant", nspace := some "west" },
    spec := some { redemptionsAllowed := some 1, expirationWindow := some "15m" },
    status := none }

def grantExhausted : ObjData :=
  { apiVersion := some "skupper.io/v2alpha1", kind := some "AccessGrant",
    meta := some { name := some "my-grant", nspace := some "west" },
    spec := some { redemptionsAllowed := some 1, expirationWindow := some "15m" },
    status := some { redeemed := some 1, conditions := [readyCond] } }

def noSiteFetch : Nat → ListGetRes := fun _ => .ok []

def readySiteFetch : Nat → ListGetRes := fun _ => .ok [siteReadyObj]

def notReadySiteFetch : Nat → ListGetRes := fun _ => .ok [siteNotReadyObj]

def emptyGrantFetch : Nat → GetRes := fun _ => .listRes []

def namedNotReadyGrantFetch : Nat → GetRes := fun _ => .objRes grantNamedNotReady

def notReadyListGrantFetch : Nat → GetRes := fun _ => .listRes [gNotReady]

def mixedListGrantFetch : Nat → GetRes := fun _ => .listRes [gReady, gNotReady]

/- Generic lemmas about the embedded loops, shared by the claim theorems. -/

theorem grantLoopGo_zero (f : Nat → GetRes) (a : Nat) (acc : Option ObjData) (fc sc : Nat) :
    grantLoopGo f a 0 acc fc sc = (finalizeGrant acc, fc, sc) := rfl

theorem siteLoopGo_zero (f : Nat → ListGetRes) (a : Nat) (sr : Bool) (fc sc : Nat) :
    siteLoopGo f a 0 sr fc sc = (.proceed sr, fc, sc) := rfl

theorem isEmpty_false_of_ne_nil {l : List ObjData} (h : l ≠ []) : l.isEmpty = false := by
  cases l with
  | nil => exact absurd rfl h
  | cons x xs => rfl

theorem lfl_allNotReady (gs : List ObjData) (sel : Option ObjData) (b : Bool)
    (hne : gs ≠ []) (h : ∀ g ∈ gs, has_condition g "Ready" = false) :
    load_from_listGo sel b gs = (sel, false) := by
  induction gs generalizing sel b with
  | nil => exact absurd rfl hne
  | cons g rest ih =>
    have hg : has_condition g "Ready" = false := h g (by simp)
    rcases eq_or_ne rest [] with hr | hr
    · subst hr; simp [load_from_listGo, hg]
    · have hrec := ih sel false hr (fun y hy => h y (List.mem_cons_of_mem _ hy))
      simp only [load_from_listGo, hg, Bool.false_eq_true, if_false]
      exact hrec

theorem grantLoop_exhaust (gf : Nat → GetRes) (gs : Nat → List ObjData)
    (h1 : ∀ i, gf i = .listRes (gs i)) (h2 : ∀ i, gs i ≠ [])
    (h3 : ∀ i, ∀ g ∈ gs i, has_condition g "Ready" = false) :
    ∀ r a fc sc, grantLoopGo gf a r none fc sc = (.empty, fc + r, sc + r * retry_delay) := by
  intro r
  induction r with
  | zero => intro a fc sc; simp [grantLoopGo_zero, finalizeGrant]
  | succ n ih =>
    intro a fc sc
    have hlfl : load_from_list (gs a) = (none, false) :=
      lfl_allNotReady (gs a) none true (h2 a) (h3 a)
    have hie : (gs a).isEmpty = false := isEmpty_false_of_ne_nil (h2 a)
    simp only [grantLoopGo, h1 a, hie, Bool.false_eq_true, if_false, hlfl]
    rw [ih (a + 1) (fc + 1) (sc + retry_delay)]
    refine congrArg (Prod.mk GrantOutcome.empty) ?_
    refine congrArg₂ Prod.mk (by omega) ?_
    simp [retry_delay]
    omega

theorem siteLoop_exhaust (sf : Nat → ListGetRes) (ss : Nat → List ObjData)
    (h1 : ∀ i, sf i = .ok (ss i)) (h2 : ∀ i, ss i ≠ [])
    (h3 : ∀ i, ∀ s ∈ ss i, has_condition s "Ready" = false) :
    ∀ r a fc sc, siteLoopGo sf a r false fc sc = (.proceed false, fc + r, sc + r * retry_delay) := by
  intro r
  induction r with
  | zero => intro a fc sc; simp [siteLoopGo_zero]
  | succ n ih =>
    intro a fc sc
    have hie : (ss a).isEmpty = false := isEmpty_false_of_ne_nil (h2 a)
    have hany : (ss a).any (fun s => has_condition s "Ready") = false := by
      rw [List.any_eq_false]
      intro s hs
      simp [h3 a s hs]
    simp only [siteLoopGo, h1 a, hie, Bool.false_eq_true, if_false, Bool.false_or, hany]
    rw [ih (a + 1) (fc + 1) (sc + retry_delay)]
    refine congrArg (Prod.mk (SiteOutcome.proceed false)) ?_
    refine congrArg₂ Prod.mk (by omega) ?_
    simp [retry_delay]
    omega

theorem grantLoopGo_succ (f : Nat → GetRes) (a r : Nat) (acc : Option ObjData) (fc sc : Nat) :
    grantLoopGo f a (r + 1) acc fc sc =
      (match f a with
       | .errRes s =>
         if s == 404 then (finalizeGrant acc, fc + 1, sc) else (.raised s, fc + 1, sc)
       | .objRes g =>
         if has_condition g "Ready" then (.selected g, fc + 1, sc)
         else grantLoopGo f (a + 1) r acc (fc + 1) (sc + retry_delay)
       | .listRes gs =>
         if gs.isEmpty then (finalizeGrant acc, fc + 1, sc)
         else
           if (load_from_list gs).2 then (finalizeGrant (load_from_list gs).1, fc + 1, sc)
           else grantLoopGo f (a + 1) r (load_from_list gs).1 (fc + 1) (sc + retry_delay)) := rfl

theorem siteLoop_readyBreak (sf : Nat → ListGetRes) (ss : List ObjData) (a r : Nat)
    (sr : Bool) (fc sc : Nat) (h : sf a = .ok ss)
    (hany : ss.any (fun s => has_condition s "Ready") = true) :
    siteLoopGo sf a (r + 1) sr fc sc = (.proceed true, fc + 1, sc) := by
  have hne : ss ≠ [] := by intro he; rw [he] at hany; simp at hany
  simp only [siteLoopGo, h, isEmpty_false_of_ne_nil hne, Bool.false_eq_true, if_false,
    hany, Bool.or_true, if_true]

theorem grantLoop_namedBreak (gf : Nat → GetRes) (g : ObjData) (a r : Nat)
    (acc : Option ObjData) (fc sc : Nat) (h : gf a = .objRes g)
    (hr : has_condition g "Ready" = true) :
    grantLoopGo gf a (r + 1) acc fc sc = (.selected g, fc + 1, sc) := by
  simp only [grantLoopGo, h, hr, if_true]

theorem grantLoop_allReadyBreak (gf : Nat → GetRes) (gs : List ObjData) (a r : Nat)
    (acc : Option ObjData) (fc sc : Nat) (h : gf a = .listRes gs) (hne : gs ≠ [])
    (hall : (load_from_list gs).2 = true) :
    grantLoopGo gf a (r + 1) acc fc sc = (finalizeGrant (load_from_list gs).1, fc + 1, sc) := by
  simp only [grantLoopGo, h, isEmpty_false_of_ne_nil hne, Bool.false_eq_true, if_false,
    hall, if_true]

theorem grantLoop_mixed (gA gB : ObjData) (gf : Nat → GetRes)
    (hA : has_condition gA "Ready" = true) (hAr : can_be_redeemed gA = true)
    (hB : has_condition gB "Ready" = false)
    (hf : ∀ i, gf i = .listRes [gA, gB]) :
    ∀ r a (acc : Option ObjData) fc sc,
      grantLoopGo gf a (r + 1) acc fc sc = (.selected gA, fc + (r + 1), sc + (r + 1) * retry_delay) := by
  have hlfl : load_from_list [gA, gB] = (some gA, false) := by
    simp [load_from_list, load_from_listGo, hA, hAr, hB]
  intro r
  induction r with
  | zero =>
    intro a acc fc sc
    simp [grantLoopGo, hf a, hlfl, finalizeGrant]
  | succ n ih =>
    intro a acc fc sc
    rw [grantLoopGo_succ, hf a]
    simp only [List.isEmpty_cons, Bool.false_eq_true, if_false, hlfl]
    rw [ih (a + 1) (some gA) (fc + 1) (sc + retry_delay)]
    refine congrArg (Prod.mk (GrantOutcome.selected gA)) ?_
    refine congrArg₂ Prod.mk (by omega) ?_
    simp [retry_delay]
    omega

theorem create_or_patchGo_filter (tns : String) (ow : Bool) (docs : List Doc) :
    ∀ (st : ApiState) (ch : Bool),
      create_or_patchGo st tns ow ch docs = create_or_patchGo st tns ow ch (docs.filter Doc.isObj) := by
  induction docs with
  | nil => intro st ch; rfl
  | cons d rest ih =>
    intro st ch
    cases d with
    | nonMap t =>
      have hfil : (Doc.nonMap t :: rest).filter Doc.isObj = rest.filter Doc.isObj := by
        simp [Doc.isObj]
      rw [hfil]
      simp only [create_or_patchGo]
      exact ih st ch
    | obj o =>
      have hfil : (Doc.obj o :: rest).filter Doc.isObj = Doc.obj o :: rest.filter Doc.isObj := by
        simp [Doc.isObj]
      rw [hfil]
      simp only [create_or_patchGo]
      cases hstep : create_or_patchStep st tns ow o with
      | error e => simp [hstep]
      | ok p =>
        obtain ⟨st2, c⟩ := p
        simp only [hstep]
        exact ih st2 (ch || c)

theorem k8s_deleteGo_filter (tns : String) (docs : List Doc) :
    ∀ (st : ApiState) (ch : Bool),
      k8s_deleteGo st tns ch docs = k8s_deleteGo st tns ch (docs.filter Doc.isObj) := by
  induction docs with
  | nil => intro st ch; rfl
  | cons d rest ih =>
    intro st ch
    cases d with
    | nonMap t =>
      have hfil : (Doc.nonMap t :: rest).filter Doc.isObj = rest.filter Doc.isObj := by
        simp [Doc.isObj]
      rw [hfil]
      simp only [k8s_deleteGo]
      exact ih st ch
    | obj o =>
      have hfil : (Doc.obj o :: rest).filter Doc.isObj = Doc.obj o :: rest.filter Doc.isObj := by
        simp [Doc.isObj]
      rw [hfil]
      simp only [k8s_deleteGo]
      cases hstep : k8s_deleteStep st tns o with
      | error e => simp [hstep]
      | ok p =>
        obtain ⟨st2, c⟩ := p
        simp only [hstep]
        exact ih st2 (ch || c)

theorem dumpGo_filter (tns : String) (ow : Bool) (docs : List Doc) :
    ∀ (fs : List (String × ObjData)) (ch : Bool),
      dumpGo fs tns ow ch docs = dumpGo fs tns ow ch (docs.filter Doc.isObj) := by
  induction docs with
  | nil => intro fs ch; rfl
  | cons d rest ih =>
    intro fs ch
    cases d with
    | nonMap t =>
      have hfil : (Doc.nonMap t :: rest).filter Doc.isObj = rest.filter Doc.isObj := by
        simp [Doc.isObj]
      rw [hfil]
      simp only [dumpGo]
      exact ih fs ch
    | obj o =>
      have hfil : (Doc.obj o :: rest).filter Doc.isObj = Doc.obj o :: rest.filter Doc.isObj := by
        simp [Doc.isObj]
      rw [hfil]
      simp only [dumpGo]
      exact ih (dumpStep fs tns ow o).1 (ch || (dumpStep fs tns ow o).2)

theorem load_from_grant_namedUnredeemable (name : String) (g : ObjData) (ss : List ObjData)
    (sf : Nat → ListGetRes) (gf : Nat → GetRes)
    (hname : name ≠ "") (hs : sf 0 = .ok ss)
    (hsr : ss.any (fun s => has_condition s "Ready") = true)
    (hg : gf 0 = .objRes g) (hgr : has_condition g "Ready" = true)
    (hcbr : can_be_redeemed g = false) :
    load_from_grant name sf gf =
      .runtimeErr ("accessgrant \x27" ++ name ++ "\x27 cannot be redeemed") := by
  have h1 : siteLoopGo sf 0 max_attempts false 0 0 = (.proceed true, 1, 0) :=
    siteLoop_readyBreak sf ss 0 5 false 0 0 hs hsr
  have h2 : grantLoopGo gf 0 max_attempts none 0 0 = (.selected g, 1, 0) :=
    grantLoop_namedBreak gf g 0 5 none 0 0 hg hgr
  simp [load_from_grant, h1, h2, hgr, hcbr, hname]

/- Additional concrete fixtures. -/
def cmObj : ObjData :=
  { apiVersion := some "skupper.io", kind := some "ConfigMap",
    meta := some { name := some "cm1", nspace := some "west" } }

def siteEastObj : ObjData :=
  { apiVersion := some "skupper.io/v2alpha1", kind := some "Site",
    meta := some { name := some "s1", nspace := some "east" } }

def secretObj : ObjData :=
  { apiVersion := some "v1", kind := some "Secret",
    meta := some { name := some "s3cret", nspace := some "west" } }

def exhaustedGrantFetch : Nat → GetRes := fun _ => .objRes grantExhausted

def apiWithGrant : ApiState :=
  { store := [(objKey gReady "west", gReady)], faults := [] }

def fault404 : K8sFault := { status := 404, reason := "NotFound", msg := "gone" }

def fault500 : K8sFault := { status := 500, reason := "InternalError", msg := "boom" }

def apiWith404 : ApiState :=
  { store := [], faults := [(objKey gReady "west", fault404)] }

def apiWith500 : ApiState :=
  { store := [], faults := [(objKey gReady "west", fault500)] }

def emptyApi : ApiState := { store := [], faults := [] }


/-- C1: evaluation of TokenModule.run at the failing input of the claim.
On kubernetes with no Site in the namespace (every Site fetch returns an
empty list), the claim says the operation returns an empty token, reports
changed=false and creates no objects. The code instead, after the
short-circuit empty result, proceeds to generate_grant: it submits a new
AccessGrant named "ansible-grant-<unixtime>" and exits with changed=true
(and an empty token). This also contradicts the repository's own unit test
test_kube_no_site_found, which expects a failure at this input. -/
theorem C1_code_eval :
    runKube "" noSiteFetch emptyGrantFetch .ok noSiteFetch emptyGrantFetch
        "ansible-grant-1735689600" 1 "15m" =
      (.exitOk none true, some (mkAccessGrant "ansible-grant-1735689600" 1 "15m")) := by
  decide

/-- C2 counterexample: a fetched list whose first member gReady has a
Ready=True condition and is redeemable, next to a not-yet-ready sibling
gNotReady, is fetched on every attempt. The claim says polling stops on the
attempt that saw the redeemable Ready member (one fetch); the code keeps
polling through all max_attempts = 6 fetches, because _load_from_list only
breaks the loop when every member of the list is Ready. -/
theorem C2_counterexample :
    mixedListGrantFetch 0 = .listRes [gReady, gNotReady] ∧
    has_condition gReady "Ready" = true ∧
    can_be_redeemed gReady = true ∧
    grantLoop mixedListGrantFetch = (.selected gReady, max_attempts, max_attempts * retry_delay) ∧
    max_attempts ≠ 1 := by
  decide

/-- C2 amended: on each attempt the first Ready and redeemable member of
the fetched list is selected, but polling stops on that attempt only when
every member of the list is Ready; when some member is not Ready the loop
continues to the next attempt (keeping the final attempt's selection when
the budget is exhausted). With every member Ready, it stops after a single
fetch: with the first redeemable member selected when one exists, and with
an empty selection (no further attempts, "" returned) when every member is
Ready but none is redeemable. -/
theorem C2_amended_theorem (gA gB gC : ObjData) (fmix fall fnr : Nat → GetRes)
    (hA : has_condition gA "Ready" = true) (hAr : can_be_redeemed gA = true)
    (hB : has_condition gB "Ready" = false)
    (hC : has_condition gC "Ready" = true) (hCr : can_be_redeemed gC = false)
    (hmix : ∀ i, fmix i = .listRes [gA, gB])
    (hall : ∀ i, fall i = .listRes [gA])
    (hnr : ∀ i, fnr i = .listRes [gC]) :
    grantLoopGo fmix 0 max_attempts none 0 0 =
      (.selected gA, max_attempts, max_attempts * retry_delay) ∧
    grantLoopGo fall 0 max_attempts none 0 0 = (.selected gA, 1, 0) ∧
    grantLoopGo fnr 0 max_attempts none 0 0 = (.empty, 1, 0) := by
  refine ⟨?_, ?_, ?_⟩
  · exact grantLoop_mixed gA gB fmix hA hAr hB hmix 5 0 none 0 0
  · have hlfl : load_from_list [gA] = (some gA, true) := by
      simp [load_from_list, load_from_listGo, hA, hAr]
    have hbrk := grantLoop_allReadyBreak fall [gA] 0 5 none 0 0 (hall 0) (by simp) (by rw [hlfl])
    rw [hlfl] at hbrk
    simpa [finalizeGrant] using hbrk
  · have hlfl : load_from_list [gC] = (none, true) := by
      simp [load_from_list, load_from_listGo, hC, hCr]
    have hbrk := grantLoop_allReadyBreak fnr [gC] 0 5 none 0 0 (hnr 0) (by simp) (by rw [hlfl])
    rw [hlfl] at hbrk
    simpa [finalizeGrant] using hbrk

/-- C2 witness: the amended theorem applied at the concrete mixed list
[gReady, gNotReady], the all-ready list [gReady] and the all-ready but
unredeemable list [grantExhausted]. -/
theorem C2_witness :
    grantLoopGo mixedListGrantFetch 0 max_attempts none 0 0 =
      (.selected gReady, max_attempts, max_attempts * retry_delay) ∧
    grantLoopGo (fun _ => .listRes [gReady]) 0 max_attempts none 0 0 =
      (.selected gReady, 1, 0) ∧
    grantLoopGo (fun _ => .listRes [grantExhausted]) 0 max_attempts none 0 0 =
      (.empty, 1, 0) :=
  C2_amended_theorem gReady gNotReady grantExhausted mixedListGrantFetch
    (fun _ => .listRes [gReady]) (fun _ => .listRes [grantExhausted])
    (by decide) (by decide) (by decide) (by decide) (by decide)
    (fun i => rfl) (fun i => rfl) (fun i => rfl)

/-- C3: evaluation of the filesystem allow-list at the claim's failing
inputs. resource.allowed tests `apiVersion in ("skupper.io/v2alpha1")`:
in Python `("x")` is a string, so the test is substring membership, not
equality. An object with apiVersion "skupper.io" and kind "ConfigMap"
(both different from the allow-list values) passes the filter and dump
writes it to the resource directory, contradicting the claim. An object
with no apiVersion at all ("" is a substring of everything) passes too. -/
theorem C3_code_eval :
    allowed cmObj = true ∧
    allowed { apiVersion := none, kind := some "ConfigMap" } = true ∧
    dump [] "west" [Doc.obj cmObj] false = ([("ConfigMap-cm1.yaml", cmObj)], true) := by
  decide

/-- C4 counterexample: the filesystem backend does not fail on a namespace
mismatch. siteEastObj declares metadata.namespace "east", different from
the target "west" and from the default placeholder; the claim says apply
fails before persisting it, but dump (which is total, it raises nothing
past the directory check) writes Site-s1.yaml with the declared namespace
kept, and reports changed=true. -/
theorem C4_counterexample :
    dump [] "west" [Doc.obj siteEastObj] false = ([("Site-s1.yaml", siteEastObj)], true) := by
  decide

/-- C4 amended: only the remote API backend performs the namespace
validation: create_or_patch raises the namespace-mismatch Exception before
any API call when the declared namespace is present, differs from the
target and is not "default". The filesystem backend performs no such
validation: dump persists the object unchanged (declared namespace kept)
whenever it passes the name/allow-list checks and the file is new. -/
theorem C4_amended_theorem (st : ApiState) (tns : String) (o : ObjData) (rest : List Doc)
    (ow ch : Bool)
    (hns : (o.meta.bind MetaData.nspace).getD "default" ≠ pyOr tns "default")
    (hnd : (o.meta.bind MetaData.nspace).getD "default" ≠ "default")
    (fs : List (String × ObjData)) (o2 : ObjData) (rest2 : List Doc) (ow2 ch2 : Bool)
    (hn2 : pyTruthyStr (o2.meta.bind MetaData.name) = true)
    (ha2 : allowed o2 = true)
    (hns2 : (o2.meta.bind MetaData.nspace).getD "" ≠ "")
    (hf2 : lookupAssoc fs ((version_kind o2).2 ++ "-" ++ (o2.meta.bind MetaData.name).getD "" ++ ".yaml") = none) :
    create_or_patchGo st tns ow ch (.obj o :: rest) =
      .error (.exc ("namespace cannot be set to \x27" ++ tns ++
        "\x27 as resource is defined with namespace \x27" ++
        (o.meta.bind MetaData.nspace).getD "default" ++ "\x27")) ∧
    dumpGo fs tns ow2 ch2 (.obj o2 :: rest2) =
      dumpGo (writeAssoc fs ((version_kind o2).2 ++ "-" ++ (o2.meta.bind MetaData.name).getD "" ++ ".yaml") o2)
        tns ow2 true rest2 := by
  constructor
  · simp [create_or_patchGo, create_or_patchStep, bne_iff_ne, hns, beq_iff_eq, hnd]
  · simp [dumpGo, dumpStep, hn2, ha2, beq_iff_eq, hns2, hf2]

/-- C4 witness: the amended theorem applied at siteEastObj (API backend,
target "west") and secretObj (filesystem backend, target "north"). -/
theorem C4_witness :
    create_or_patchGo emptyApi "west" false false [Doc.obj siteEastObj] =
      .error (.exc ("namespace cannot be set to \x27west\x27 as resource is defined with namespace \x27east\x27")) ∧
    dumpGo [] "north" false false [Doc.obj secretObj] =
      dumpGo (writeAssoc [] "Secret-s3cret.yaml" secretObj) "north" false true [] :=
  C4_amended_theorem emptyApi "west" siteEastObj [] false false (by decide) (by decide)
    [] secretObj [] false false (by decide) (by decide) (by decide) (by decide)

/-- C5 counterexample: the named AccessGrant my-grant is retrieved on every
attempt but lacks a Ready=True condition (the other disjunct of the
claim's hypothesis). The claim says the operation raises a fatal error
identifying my-grant as not redeemable. Instead the grant loop never
accepts the non-Ready named grant, load_from_grant returns empty, run
tries to recreate the grant, the creation conflicts (overwrite False, so
the spec-modelled client reports no change), and the module fails with
"unable to create AccessGrant: 'my-grant'" - a message that does not
mention redeemability at all. -/
theorem C5_counterexample :
    runKube "my-grant" readySiteFetch namedNotReadyGrantFetch .noChange
        readySiteFetch namedNotReadyGrantFetch "unused" 1 "15m" =
      (.failJson "unable to create AccessGrant: \x27my-grant\x27",
       some (mkAccessGrant "my-grant" 1 "15m")) ∧
    has_condition grantNamedNotReady "Ready" = false ∧
    pyInStr "redeem" "unable to create AccessGrant: \x27my-grant\x27" = false := by
  decide

/-- C5 amended: when the caller names a grant and the named AccessGrant is
retrieved WITH a Ready=True condition but cannot be redeemed
(status.redeemed >= spec.redemptionsAllowed), the operation fails with the
fatal error "accessgrant '<name>' cannot be redeemed", no token is
returned, no grant creation is attempted and changed remains false. (When
the named grant instead lacks Ready=True, polling exhausts and the run
fails later with the distinct "unable to create AccessGrant" error, as the
counterexample shows.) -/
theorem C5_amended_theorem (name : String) (g : ObjData) (ss : List ObjData)
    (sf : Nat → ListGetRes) (gf : Nat → GetRes) (co : CreateOut)
    (sf2 : Nat → ListGetRes) (gf2 : Nat → GetRes) (gen : String) (rd : Int) (ew : String)
    (hname : name ≠ "") (hs : sf 0 = .ok ss)
    (hsr : ss.any (fun s => has_condition s "Ready") = true)
    (hg : gf 0 = .objRes g) (hgr : has_condition g "Ready" = true)
    (hcbr : can_be_redeemed g = false) :
    runKube name sf gf co sf2 gf2 gen rd ew =
      (.failJson ("accessgrant \x27" ++ name ++ "\x27 cannot be redeemed"), none) := by
  have hload := load_from_grant_namedUnredeemable name g ss sf gf hname hs hsr hg hgr hcbr
  simp [runKube, hload]

/-- C5 witness: the amended theorem applied at the exhausted grant
my-grant (Ready, redeemed = redemptionsAllowed = 1) with a Ready site. -/
theorem C5_witness :
    runKube "my-grant" readySiteFetch exhaustedGrantFetch .ok
        readySiteFetch exhaustedGrantFetch "unused" 1 "15m" =
      (.failJson ("accessgrant \x27my-grant\x27 cannot be redeemed"), none) :=
  C5_amended_theorem "my-grant" grantExhausted [siteReadyObj] readySiteFetch
    exhaustedGrantFetch .ok readySiteFetch exhaustedGrantFetch "unused" 1 "15m"
    (by decide) rfl (by decide) rfl (by decide) (by decide)

/-- C6: a polling wait whose candidate set is present (non-empty fetch
result) but has zero members with a Ready=True condition on every attempt
performs exactly max_attempts = 6 fetch attempts, sleeping retry_delay = 5
seconds between attempts (max_attempts * retry_delay seconds in total),
then ends with an empty, non-error outcome: the site wait proceeds with
siteReady false, the grant wait ends with an empty selection, and
load_from_grant returns the empty string, leaving the caller to decide
what the empty result means. -/
theorem C6_theorem (sf : Nat → ListGetRes) (gf : Nat → GetRes)
    (ss gs : Nat → List ObjData)
    (h1 : ∀ i, sf i = .ok (ss i)) (h2 : ∀ i, ss i ≠ [])
    (h3 : ∀ i, ∀ s ∈ ss i, has_condition s "Ready" = false)
    (h4 : ∀ i, gf i = .listRes (gs i)) (h5 : ∀ i, gs i ≠ [])
    (h6 : ∀ i, ∀ g ∈ gs i, has_condition g "Ready" = false) :
    siteLoopGo sf 0 max_attempts false 0 0 =
      (.proceed false, max_attempts, max_attempts * retry_delay) ∧
    grantLoopGo gf 0 max_attempts none 0 0 =
      (.empty, max_attempts, max_attempts * retry_delay) ∧
    load_from_grant "" sf gf = .emptyStr ∧
    max_attempts = 6 ∧ retry_delay = 5 := by
  have hsite := siteLoop_exhaust sf ss h1 h2 h3 max_attempts 0 0 0
  have hgrant := grantLoop_exhaust gf gs h4 h5 h6 max_attempts 0 0 0
  simp only [Nat.zero_add] at hsite hgrant
  refine ⟨hsite, hgrant, ?_, rfl, rfl⟩
  simp [load_from_grant, hsite, hgrant]

/-- C6 witness: the theorem applied at constant fetches returning one
not-ready Site and one not-ready AccessGrant on every attempt. -/
theorem C6_witness :
    siteLoopGo notReadySiteFetch 0 max_attempts false 0 0 =
      (.proceed false, max_attempts, max_attempts * retry_delay) ∧
    grantLoopGo notReadyListGrantFetch 0 max_attempts none 0 0 =
      (.empty, max_attempts, max_attempts * retry_delay) ∧
    load_from_grant "" notReadySiteFetch notReadyListGrantFetch = .emptyStr ∧
    max_attempts = 6 ∧ retry_delay = 5 := by
  refine C6_theorem notReadySiteFetch notReadyListGrantFetch (fun _ => [siteNotReadyObj])
    (fun _ => [gNotReady]) (fun i => rfl) ?_ ?_ (fun i => rfl) ?_ ?_
  · intro i; simp
  · intro i s hs; rw [List.mem_singleton.mp hs]; decide
  · intro i; simp
  · intro i g hg; rw [List.mem_singleton.mp hg]; decide

/-- C7: applying with overwrite=false an object that already exists is a
pure skip in both backends. For the remote API backend, a conflicting
object (well-namespaced, stored under its key, no other API fault)
contributes no state change, no error and no change-flag change to the
batch: processing it is the same as processing the rest of the batch. For
the filesystem backend, an object whose <kind>-<name>.yaml file already
exists is likewise skipped unchanged. Re-applying the same definitions
with overwrite=false is therefore idempotent. -/
theorem C7_theorem (st : ApiState) (tns : String) (o v : ObjData) (ch : Bool) (rest : List Doc)
    (hns : (o.meta.bind MetaData.nspace).getD "default" = pyOr tns "default")
    (hf : faultLookup st (objKey o tns) = none)
    (hst : storeLookup st (objKey o tns) = some v)
    (fs : List (String × ObjData)) (o2 w : ObjData) (ch2 : Bool) (rest2 : List Doc)
    (hn2 : pyTruthyStr (o2.meta.bind MetaData.name) = true)
    (ha2 : allowed o2 = true)
    (hf2 : lookupAssoc fs ((version_kind o2).2 ++ "-" ++ (o2.meta.bind MetaData.name).getD "" ++ ".yaml") = some w) :
    create_or_patchGo st tns false ch (.obj o :: rest) = create_or_patchGo st tns false ch rest ∧
    dumpGo fs tns false ch2 (.obj o2 :: rest2) = dumpGo fs tns false ch2 rest2 := by
  constructor
  · have hstep : create_or_patchStep st tns false o = .ok (st, false) := by
      simp [create_or_patchStep, hns, applyOne, hf, hst]
    simp [create_or_patchGo, hstep]
  · have hstep : dumpStep fs tns false o2 = (fs, false) := by
      simp [dumpStep, hn2, ha2, hf2]
    simp [dumpGo, hstep]

/-- C7 witness: the theorem applied at gReady pre-existing in the API
store (target "west") and secretObj pre-existing as Secret-s3cret.yaml. -/
theorem C7_witness :
    create_or_patchGo apiWithGrant "west" false false [Doc.obj gReady] =
      create_or_patchGo apiWithGrant "west" false false [] ∧
    dumpGo [("Secret-s3cret.yaml", secretObj)] "west" false false [Doc.obj secretObj] =
      dumpGo [("Secret-s3cret.yaml", secretObj)] "west" false false [] :=
  C7_theorem apiWithGrant "west" gReady gReady false [] (by decide) (by decide) (by decide)
    [("Secret-s3cret.yaml", secretObj)] secretObj secretObj false [] (by decide) (by decide)
    (by decide)

/-- C8: removal is idempotent on absence and fatal on other backend
errors. Remote API backend: an object absent from the store (the server's
404) is skipped without error, as is an object whose API call faults with
status 404; since the state is unchanged, a repeated remove behaves
identically. A fault with any status other than 404 aborts the batch with
a K8sException. Filesystem backend: an object whose file is absent is
skipped without error and without change. -/
theorem C8_theorem (st : ApiState) (tns : String) (o : ObjData) (ch : Bool) (rest : List Doc)
    (hn : pyTruthyStr (o.meta.bind MetaData.name) = true)
    (hf : faultLookup st (objKey o tns) = none)
    (hs : storeLookup st (objKey o tns) = none)
    (st2 : ApiState) (tns2 : String) (o2 : ObjData) (ch2 : Bool) (rest2 : List Doc) (f : K8sFault)
    (hn2 : pyTruthyStr (o2.meta.bind MetaData.name) = true)
    (hf2 : faultLookup st2 (objKey o2 tns2) = some f) (h404 : f.status = 404)
    (st3 : ApiState) (tns3 : String) (o3 : ObjData) (ch3 : Bool) (rest3 : List Doc) (f2 : K8sFault)
    (hn3 : pyTruthyStr (o3.meta.bind MetaData.name) = true)
    (hf3 : faultLookup st3 (objKey o3 tns3) = some f2) (hno : f2.status ≠ 404)
    (fs : List (String × ObjData)) (o4 : ObjData) (ch4 : Bool) (rest4 : List Doc)
    (hn4 : pyTruthyStr (o4.meta.bind MetaData.name) = true)
    (hf4 : lookupAssoc fs ((version_kind o4).2 ++ "-" ++ (o4.meta.bind MetaData.name).getD "" ++ ".yaml") = none) :
    k8s_deleteGo st tns ch (.obj o :: rest) = k8s_deleteGo st tns ch rest ∧
    k8s_deleteGo st2 tns2 ch2 (.obj o2 :: rest2) = k8s_deleteGo st2 tns2 ch2 rest2 ∧
    k8s_deleteGo st3 tns3 ch3 (.obj o3 :: rest3) = .error (.k8sExc (k8sFaultMsg f2)) ∧
    fs_deleteGo fs ch4 (.obj o4 :: rest4) = fs_deleteGo fs ch4 rest4 := by
  refine ⟨?_, ?_, ?_, ?_⟩
  · have hstep : k8s_deleteStep st tns o = .ok (st, false) := by
      simp [k8s_deleteStep, hn, deleteOne, hf, hs]
    simp [k8s_deleteGo, hstep]
  · have hstep : k8s_deleteStep st2 tns2 o2 = .ok (st2, false) := by
      simp [k8s_deleteStep, hn2, deleteOne, hf2, h404]
    simp [k8s_deleteGo, hstep]
  · have hstep : k8s_deleteStep st3 tns3 o3 = .error (.k8sExc (k8sFaultMsg f2)) := by
      simp [k8s_deleteStep, hn3, deleteOne, hf3, beq_iff_eq, hno]
    simp [k8s_deleteGo, hstep]
  · simp [fs_deleteGo, hn4, hf4]

/-- C8 witness: the theorem applied at gReady absent from an empty API
store, faulting with 404, faulting with 500, and absent from an empty
resource directory. -/
theorem C8_witness :
    k8s_deleteGo emptyApi "west" false [Doc.obj gReady] =
      k8s_deleteGo emptyApi "west" false [] ∧
    k8s_deleteGo apiWith404 "west" false [Doc.obj gReady] =
      k8s_deleteGo apiWith404 "west" false [] ∧
    k8s_deleteGo apiWith500 "west" false [Doc.obj gReady] =
      .error (.k8sExc (k8sFaultMsg fault500)) ∧
    fs_deleteGo [] false [Doc.obj gReady] = fs_deleteGo [] false [] :=
  C8_theorem emptyApi "west" gReady false [] (by decide) (by decide) (by decide)
    apiWith404 "west" gReady false [] fault404 (by decide) (by decide) (by decide)
    apiWith500 "west" gReady false [] fault500 (by decide) (by decide) (by decide)
    [] gReady false [] (by decide) (by decide)

/-- C9: the AccessToken synthesized by load_from_grant from a confirmed
grant is deterministic in the grant (mkAccessToken is a function of it):
its kind is AccessToken, its metadata.name is "token-" ++ the grant's
metadata.name, and spec.code, spec.url, spec.ca are copied from the
grant's status.code, status.url, status.ca. -/
theorem C9_theorem (g : ObjData) (m : MetaData) (n : String)
    (hm : g.meta = some m) (hn : m.name = some n) :
    (mkAccessToken g).kind = some "AccessToken" ∧
    ((mkAccessToken g).meta.bind MetaData.name) = some ("token-" ++ n) ∧
    ((mkAccessToken g).spec.bind SpecData.code) = (g.status.bind StatusData.code) ∧
    ((mkAccessToken g).spec.bind SpecData.url) = (g.status.bind StatusData.url) ∧
    ((mkAccessToken g).spec.bind SpecData.ca) = (g.status.bind StatusData.ca) := by
  simp [mkAccessToken, hm, hn, pyStrOpt]

/-- C9 witness: the theorem applied at the Ready grant gReady (named g1,
status code/url/ca populated). -/
theorem C9_witness :
    (mkAccessToken gReady).kind = some "AccessToken" ∧
    ((mkAccessToken gReady).meta.bind MetaData.name) = some ("token-" ++ "g1") ∧
    ((mkAccessToken gReady).spec.bind SpecData.code) = (gReady.status.bind StatusData.code) ∧
    ((mkAccessToken gReady).spec.bind SpecData.url) = (gReady.status.bind StatusData.url) ∧
    ((mkAccessToken gReady).spec.bind SpecData.ca) = (gReady.status.bind StatusData.ca) :=
  C9_theorem gReady { name := some "g1", nspace := some "west" } "g1" rfl rfl

/-- C10: every YAML document that is not a mapping is invisible to the
remote-API apply (create_or_patch), the remote-API remove (delete) and the
filesystem apply (dump): running any of the three over a document list is
the same as running it over the list with all non-mapping documents
removed - same final state, same changed flag, same error behavior, so no
non-mapping document ever causes an error, a backend call or a flag
change, and the three operations are total over arbitrary multi-document
input. -/
theorem C10_theorem (st : ApiState) (tns : String) (ow ch : Bool)
    (fs : List (String × ObjData)) (docs : List Doc) :
    create_or_patchGo st tns ow ch docs = create_or_patchGo st tns ow ch (docs.filter Doc.isObj) ∧
    k8s_deleteGo st tns ch docs = k8s_deleteGo st tns ch (docs.filter Doc.isObj) ∧
    dumpGo fs tns ow ch docs = dumpGo fs tns ow ch (docs.filter Doc.isObj) :=
  ⟨create_or_patchGo_filter tns ow docs st ch,
   k8s_deleteGo_filter tns docs st ch,
   dumpGo_filter tns ow docs fs ch⟩
